import Mathlib

/-!
Shallow embedding of `app.py` of the `visualizer` repository (a Flask app
that fetches likes/reposts for a Bluesky post and renders two bar charts),
together with theorems settling the frozen claims about it.

Modelling conventions:
* The remote Bluesky API, reached through the `requests` library, is an
  oracle (`Remote`): each endpoint is a function from its request data to
  either `Except.error msg` (a raised `requests` exception, covering
  transport failures, `raise_for_status` and JSON-decode errors) or
  `Except.ok` of the parsed response data the code actually reads.
* Python `None` / falsy checks on the token and collections are modelled
  explicitly (`truthy`, list emptiness).
* `datetime.fromisoformat` applied to the date part of a timestamp is
  modelled by `parseDateChars`, restricted to the canonical zero-padded
  `YYYY-MM-DD` form; a parsed date is encoded as the natural number
  `y * 10000 + m * 100 + d`, whose order and equality agree with the order
  and equality of the corresponding `datetime` values.
* Chart rendering (`matplotlib`) is a side effect; the chart functions
  return the fixed file path the code returns.
-/

namespace Visualizer

/-! ## Python digit / date parsing (model of `datetime.fromisoformat` on dates) -/

/-- Numeric value of a decimal digit character. -/
def dch (c : Char) : Nat := c.toNat - 48

/-- Gregorian leap-year rule, as used by Python `datetime`. -/
def isLeap (y : Nat) : Bool := (y % 4 == 0 && y % 100 != 0) || y % 400 == 0

/-- Number of days in month `m` of year `y` (Python `calendar` rule). -/
def daysInMonth (y m : Nat) : Nat :=
  if m = 2 then (if isLeap y then 29 else 28)
  else if m = 4 ∨ m = 6 ∨ m = 9 ∨ m = 11 then 30
  else 31

/-- Model of `datetime.fromisoformat` on a date string, restricted to the
canonical zero-padded `YYYY-MM-DD` form; returns the encoding
`y * 10000 + m * 100 + d`, or `none` when the call would raise
`ValueError`. -/
def parseDateChars (cs : List Char) : Option Nat :=
  match cs with
  | [y1, y2, y3, y4, s1, m1, m2, s2, d1, d2] =>
    if y1.isDigit ∧ y2.isDigit ∧ y3.isDigit ∧ y4.isDigit ∧ s1 = '-' ∧
        m1.isDigit ∧ m2.isDigit ∧ s2 = '-' ∧ d1.isDigit ∧ d2.isDigit then
      let y := ((dch y1 * 10 + dch y2) * 10 + dch y3) * 10 + dch y4
      let m := dch m1 * 10 + dch m2
      let d := dch d1 * 10 + dch d2
      if 1 ≤ y ∧ 1 ≤ m ∧ m ≤ 12 ∧ 1 ≤ d ∧ d ≤ daysInMonth y m then
        some (y * 10000 + m * 100 + d)
      else none
    else none
  | _ => none

/-- Model of `datetime.fromisoformat(ts.split("T")[0])` (app.py lines 107 and 133):
the characters before the first `T` are the date part, which is parsed. -/
def toDate (ts : String) : Option Nat :=
  parseDateChars (ts.data.takeWhile (fun c => c ≠ 'T'))

/-! ## Time-bucketing aggregator (app.py lines 107-110 / 133-136)

```
dates = [datetime.fromisoformat(ts.split("T")[0]) for ts in like_timestamps]
date_counts = Counter(dates)
sorted_dates = sorted(date_counts.keys())
counts = [date_counts[date] for date in sorted_dates]
```
The result is the list `zip sorted_dates counts`.  `none` models a
`ValueError` raised by `fromisoformat` on a malformed timestamp. -/

/-- The daily buckets `(date, count)` computed by lines 107-110 of app.py:
the distinct dates (`Counter` keys) sorted ascending, each paired with its
number of occurrences. -/
def bucketCounts (tss : List String) : Option (List (Nat × Nat)) :=
  match tss.mapM toDate with
  | none => none
  | some dates =>
    some (((dates.dedup).insertionSort (· ≤ ·)).map (fun d => (d, dates.count d)))

/-! ## Link parser (app.py lines 273-276)

```
did_in_profile_match = re.match(r"https?://bsky\.app/profile/(did:[^/]+)/post/([^/]+)", link)
web_match = re.match(r"https?://bsky\.app/profile/([^/]+)/post/([^/]+)", link)
```
`re.match` anchors at the start of the string only; a `[^/]+` group is a
maximal nonempty run of characters other than `/`. -/

/-- Consume the literal character sequence `pre` from the front of `cs`. -/
def stripPre (pre cs : List Char) : Option (List Char) :=
  match pre, cs with
  | [], rest => some rest
  | p :: ps, c :: rest => if c = p then stripPre ps rest else none
  | _ :: _, [] => none

/-- The maximal run of non-`/` characters at the front (a `[^/]+` group,
when nonempty). -/
def seg (cs : List Char) : List Char := cs.takeWhile (fun c => c ≠ '/')

/-- What remains after `seg`. -/
def afterSeg (cs : List Char) : List Char := cs.dropWhile (fun c => c ≠ '/')

/-- Model of `re.match(r"https?://bsky\.app/profile/([^/]+)/post/([^/]+)", link)`,
returning the two captured groups. -/
def web_match (link : String) : Option (String × String) :=
  let cs := link.data
  match stripPre "https://".data cs <|> stripPre "http://".data cs with
  | none => none
  | some r1 =>
    match stripPre "bsky.app/profile/".data r1 with
    | none => none
    | some r2 =>
      let hseg := seg r2
      if hseg = [] then none
      else
        match stripPre "/post/".data (afterSeg r2) with
        | none => none
        | some r3 =>
          let pseg := seg r3
          if pseg = [] then none
          else some (String.mk hseg, String.mk pseg)

/-- Model of `re.match(r"https?://bsky\.app/profile/(did:[^/]+)/post/([^/]+)", link)`,
returning the two captured groups (the first starts with `did:`). -/
def did_in_profile_match (link : String) : Option (String × String) :=
  let cs := link.data
  match stripPre "https://".data cs <|> stripPre "http://".data cs with
  | none => none
  | some r1 =>
    match stripPre "bsky.app/profile/".data r1 with
    | none => none
    | some r2 =>
      match stripPre "did:".data r2 with
      | none => none
      | some r2did =>
        let tailSeg := seg r2did
        if tailSeg = [] then none
        else
          match stripPre "/post/".data (afterSeg r2did) with
          | none => none
          | some r3 =>
            let pseg := seg r3
            if pseg = [] then none
            else some (String.mk ("did:".data ++ tailSeg), String.mk pseg)

/-- Python `str.strip()` on the submitted link (app.py line 269). -/
def pyStrip (s : String) : String :=
  String.mk (((s.data.dropWhile Char.isWhitespace).reverse.dropWhile Char.isWhitespace).reverse)

/-- Python f-string interpolation of a possibly-`None` value: `None` prints
as the literal string `None`. -/
def pyStr : Option String → String
  | none => "None"
  | some s => s

/-- Python truthiness of the `access_token` global (`None` and the empty
string are falsy). -/
def truthy : Option String → Bool
  | none => false
  | some s => if s = "" then false else true

/-! ## The remote API oracle -/

/-- Oracle for the remote Bluesky API as consumed through `requests`.
Each field gives, for one endpoint, either `Except.error msg` (the call
raised a `requests` exception: transport failure, `raise_for_status` on a
non-2xx response, or JSON-decode failure) or `Except.ok` of the data the
code reads from the response.  For the two engagement endpoints the code
checks `status_code == 200` before parsing, so the oracle returns the
status code together with the parsed collection; each engagement record is
modelled by its optional `indexedAt` field. -/
structure Remote where
  createSessionJwt : Except String (Option String)
  resolveHandleDid : String → Except String (Option String)
  getProfileHandle : String → Except String (Option String)
  getRepostedBy : String → Except String (Nat × List (Option String))
  getLikes : String → Except String (Nat × List (Option String))

/-- Copy of `r` with a different session-creation endpoint. -/
def Remote.withSession (r : Remote) (j : Except String (Option String)) : Remote :=
  { r with createSessionJwt := j }

/-- Copy of `r` with a different handle-resolution endpoint. -/
def Remote.withResolve (r : Remote) (f : String → Except String (Option String)) : Remote :=
  { r with resolveHandleDid := f }

/-! ## get_access_token (app.py lines 26-43)

The global `access_token` is threaded explicitly as an `Option String`.
On a `RequestException` (transport or `raise_for_status`) the except
clause re-raises `Exception("Authentication failed. ...")` and the global
is unchanged; otherwise the global is assigned `data.get("accessJwt")`
first, and `ValueError("Access token not retrieved.")` is raised when that
value is falsy. -/

/-- Model of `get_access_token`: returns the new global token and either
`ok ()` or the raised exception's message. -/
def get_access_token (r : Remote) (tok : Option String) :
    Option String × Except String Unit :=
  match r.createSessionJwt with
  | .error _ => (tok, .error "Authentication failed. Check your username and password.")
  | .ok jwt =>
    if truthy jwt then (jwt, .ok ()) else (jwt, .error "Access token not retrieved.")

/-! ## Identity resolution (app.py lines 46-82) -/

/-- Model of `resolve_did` (app.py lines 46-68): a `RequestException` or a
falsy `did` field yields `None`. -/
def resolve_did (r : Remote) (handle : String) : Option String :=
  match r.resolveHandleDid handle with
  | .error _ => none
  | .ok did =>
    match did with
    | none => none
    | some d => if d = "" then none else some d

/-- Model of `fetch_username_from_did` (app.py lines 71-82): a
`RequestException` yields `None`; otherwise `response.json().get("handle")`
is returned as is. -/
def fetch_username_from_did (r : Remote) (did : String) : Option String :=
  match r.getProfileHandle did with
  | .error _ => none
  | .ok h => h

/-! ## Chart generation (app.py lines 101-149)

Rendering is a side effect; each function computes the daily buckets (a
malformed timestamp makes `fromisoformat` raise, modelled by the `error`
case) and returns the fixed path it saves to. -/

/-- Model of `generate_likes_chart` (app.py lines 101-123). -/
def generate_likes_chart (handle : Option String) (like_timestamps : List String)
    (post_link : String) : Except String String :=
  match bucketCounts like_timestamps with
  | none => .error "Invalid isoformat string"
  | some _ => .ok "static/likes_chart.png"

/-- Model of `generate_reposts_chart` (app.py lines 126-149); extracts the
`indexedAt` field of each repost record that has one. -/
def generate_reposts_chart (handle : Option String) (reposts : List (Option String)) :
    Except String String :=
  let repost_timestamps := reposts.filterMap id
  match bucketCounts repost_timestamps with
  | none => .error "Invalid isoformat string"
  | some _ => .ok "static/reposts_chart.png"

/-! ## The /generate orchestrator (app.py lines 256-317) -/

/-- The JSON body and HTTP status of a `/generate` response: the optional
`likes_chart`, `reposts_chart` and `error` keys. -/
structure Resp where
  status : Nat
  likes_chart : Option String
  reposts_chart : Option String
  error : Option String
deriving DecidableEq

/-- app.py lines 287-314: build the `at://` URI, fetch reposts then likes
(each degraded to `[]` on a non-200 status; a raised exception is the
`error` case), then generate a chart per non-empty collection and assemble
the response. -/
def fetch_and_respond (r : Remote) (did handle : Option String) (post_id : String) :
    Except String Resp :=
  let at_uri := "at://" ++ pyStr did ++ "/app.bsky.feed.post/" ++ post_id
  match r.getRepostedBy at_uri with
  | .error e => .error e
  | .ok (rs, rb) =>
    let reposts := if rs = 200 then rb else []
    match r.getLikes at_uri with
    | .error e => .error e
    | .ok (ls, lb) =>
      let likes := if ls = 200 then lb else []
      let post_link := "https://bsky.app/profile/" ++ pyStr handle ++ "/post/" ++ post_id
      let likes_timestamps := likes.filterMap id
      match (if likes = [] then (.ok none : Except String (Option String))
             else (generate_likes_chart handle likes_timestamps post_link).map some) with
      | .error e => .error e
      | .ok likes_chart_path =>
        match (if reposts = [] then (.ok none : Except String (Option String))
               else (generate_reposts_chart handle reposts).map some) with
        | .error e => .error e
        | .ok reposts_chart_path =>
          .ok ⟨200, likes_chart_path, reposts_chart_path, none⟩

/-- The body of `generate_charts`' `try` block (app.py lines 260-314),
before the `except` clause is applied: returns the new global token and
either the response or a raised exception's message.  `reqLink` is the
`link` value of the request JSON (`none` when no JSON body or no `link`
key). -/
def generate_charts_core (r : Remote) (tok : Option String) (reqLink : Option String) :
    Option String × Except String Resp :=
  let auth := if truthy tok then (tok, (.ok () : Except String Unit)) else get_access_token r tok
  match auth with
  | (tok2, .error e) => (tok2, .error e)
  | (tok2, .ok ()) =>
    match reqLink with
    | none => (tok2, .ok ⟨400, none, none, some "No link provided"⟩)
    | some raw =>
      let link := pyStrip raw
      match did_in_profile_match link with
      | some (did, post_id) =>
        (tok2, fetch_and_respond r (some did) (fetch_username_from_did r did) post_id)
      | none =>
        match web_match link with
        | some (handle, post_id) =>
          (tok2, fetch_and_respond r (resolve_did r handle) (some handle) post_id)
        | none => (tok2, .ok ⟨400, none, none, some "Invalid link format."⟩)

/-- Model of the `/generate` endpoint `generate_charts` (app.py lines
256-317): the `try` body, with the `except Exception` clause turning any
raised exception into a 500 response carrying its message. -/
def generate_charts (r : Remote) (tok : Option String) (reqLink : Option String) :
    Option String × Resp :=
  match generate_charts_core r tok reqLink with
  | (tok2, .ok resp) => (tok2, resp)
  | (tok2, .error e) =>
    (tok2, ⟨500, none, none, some ("Error generating charts: " ++ e)⟩)

/-! ## Concrete oracle instances used by witnesses and counterexamples -/

/-- A well-behaved remote: authentication succeeds, identities resolve,
both engagement endpoints answer 200 with an empty collection. -/
def baseRemote : Remote where
  createSessionJwt := .ok (some "tok123")
  resolveHandleDid := fun _ => .ok (some "did:plc:abc")
  getProfileHandle := fun _ => .ok (some "alice.test")
  getRepostedBy := fun _ => .ok (200, [])
  getLikes := fun _ => .ok (200, [])

/-- A remote whose handle-resolution endpoint fails with a transport error
and whose reposts endpoint returns a non-empty collection exactly when
queried with the `at://None/...` URI, so that the response reveals which
URI the fetch stage used. -/
def sentinelProbeRemote : Remote :=
  { baseRemote with
    resolveHandleDid := fun _ => .error "connection error"
    getRepostedBy := fun uri =>
      if uri = "at://None/app.bsky.feed.post/3kabc" then .ok (200, [some "2024-01-01T00:00:00Z"])
      else .ok (200, []) }

/-- A remote whose reposts endpoint raises a transport error while the
likes endpoint succeeds with a non-empty collection. -/
def repostsDownRemote : Remote :=
  { baseRemote with
    getRepostedBy := fun _ => .error "connection aborted"
    getLikes := fun _ => .ok (200, [some "2024-01-01T00:00:00Z"]) }

/-- A remote on which both identity-resolution endpoints fail: the
handle-resolution call raises, the profile call answers without the
expected field. -/
def identityDownRemote : Remote :=
  { baseRemote with
    resolveHandleDid := fun _ => .error "boom"
    getProfileHandle := fun _ => .ok none }

end Visualizer

namespace Visualizer

/-! ## Claims -/

/-- C1: on the input
`["2024-01-01T10:00:00Z", "2024-01-01T23:00:00Z", "2024-01-02T00:00:01Z"]`
the time-bucketing aggregation produces exactly the buckets
`[(2024-01-01, 2), (2024-01-02, 1)]` (dates encoded as `yyyymmdd`),
ascending, with no synthesized zero-count gap days. -/
theorem c1_time_bucketing_example :
    bucketCounts ["2024-01-01T10:00:00Z", "2024-01-01T23:00:00Z", "2024-01-02T00:00:01Z"]
      = some [(20240101, 2), (20240102, 1)] := by decide

/-- C8: whenever the aggregator produces a bucket list, its date sequence
is strictly increasing (hence has no duplicate dates), and the empty input
list yields the empty bucket list. -/
theorem c8_buckets_strictly_increasing (tss : List String) (bs : List (Nat × Nat))
    (h : bucketCounts tss = some bs) :
    List.Sorted (· < ·) (bs.map Prod.fst) ∧ (bs.map Prod.fst).Nodup ∧
      bucketCounts ([] : List String) = some [] := by
  cases hm : tss.mapM toDate with
  | none => rw [bucketCounts, hm] at h; exact absurd h (by simp)
  | some dates =>
    rw [bucketCounts, hm] at h
    injection h with h
    have hfst : bs.map Prod.fst = (dates.dedup).insertionSort (· ≤ ·) := by
      subst h; simp [List.map_map, Function.comp_def]
    have hnd : ((dates.dedup).insertionSort (· ≤ ·)).Nodup :=
      (List.perm_insertionSort (· ≤ ·) dates.dedup).nodup_iff.mpr (List.nodup_dedup dates)
    have hsorted : List.Sorted (· ≤ ·) ((dates.dedup).insertionSort (· ≤ ·)) :=
      List.sorted_insertionSort (· ≤ ·) dates.dedup
    refine ⟨?_, ?_, rfl⟩
    · rw [hfst]; exact hsorted.lt_of_le hnd
    · rw [hfst]; exact hnd

/-- Witness for C8 at a concrete input. -/
theorem c8_buckets_strictly_increasing_witness :
    List.Sorted (· < ·) (([(20240304, 1), (20240305, 1)] : List (Nat × Nat)).map Prod.fst) ∧
      (([(20240304, 1), (20240305, 1)] : List (Nat × Nat)).map Prod.fst).Nodup ∧
      bucketCounts ([] : List String) = some [] :=
  c8_buckets_strictly_increasing ["2024-03-05T01:00:00Z", "2024-03-04T09:00:00Z"]
    [(20240304, 1), (20240305, 1)] (by decide)

/-- C7: both identity-resolution operations turn a raised transport
exception or an absent response field into `None` and return normally. -/
theorem c7_resolution_failure_yields_none (r : Remote) (handle did : String)
    (h1 : (∃ e, r.resolveHandleDid handle = .error e) ∨ r.resolveHandleDid handle = .ok none)
    (h2 : (∃ e, r.getProfileHandle did = .error e) ∨ r.getProfileHandle did = .ok none) :
    resolve_did r handle = none ∧ fetch_username_from_did r did = none := by
  constructor
  · rcases h1 with ⟨e, he⟩ | he <;> simp [resolve_did, he]
  · rcases h2 with ⟨e, he⟩ | he <;> simp [fetch_username_from_did, he]

/-- Witness for C7 at a concrete failing remote. -/
theorem c7_resolution_failure_yields_none_witness :
    resolve_did identityDownRemote "alice.test" = none ∧
      fetch_username_from_did identityDownRemote "did:plc:abc" = none :=
  c7_resolution_failure_yields_none identityDownRemote "alice.test" "did:plc:abc"
    (Or.inl ⟨"boom", rfl⟩) (Or.inr rfl)

/-- C2 fails on the code: when handle resolution fails, `resolve_did`
returns `None`, yet the request still reaches the engagement fetch with
the literal sentinel URI `at://None/app.bsky.feed.post/3kabc` — the
response contains a reposts chart that `sentinelProbeRemote` serves only
for that exact URI. -/
theorem c2_none_sentinel_reaches_fetch :
    resolve_did sentinelProbeRemote "alice.test" = none ∧
      generate_charts sentinelProbeRemote (some "tok")
          (some "https://bsky.app/profile/alice.test/post/3kabc")
        = (some "tok", ⟨200, none, some "static/reposts_chart.png", none⟩) := by decide

/-! ### Shared helper lemmas about the orchestrator -/

/-- When both engagement endpoints answer without raising and with a
collection that degrades to empty, the fetch stage responds 200 with no
chart keys. -/
theorem fetch_and_respond_of_empty (r : Remote) (did handle : Option String) (pid : String)
    (hrep : ∀ uri, ∃ s b, r.getRepostedBy uri = .ok (s, b) ∧ (if s = 200 then b else []) = [])
    (hlik : ∀ uri, ∃ s b, r.getLikes uri = .ok (s, b) ∧ (if s = 200 then b else []) = []) :
    fetch_and_respond r did handle pid = .ok ⟨200, none, none, none⟩ := by
  obtain ⟨rs, rb, hb, he⟩ := hrep ("at://" ++ pyStr did ++ "/app.bsky.feed.post/" ++ pid)
  obtain ⟨ls, lb, hb2, he2⟩ := hlik ("at://" ++ pyStr did ++ "/app.bsky.feed.post/" ++ pid)
  simp only [fetch_and_respond, hb, hb2, he, he2]
  simp

/-- When the reposts endpoint answers a non-success status and the likes
endpoint answers 200 with a non-empty, aggregatable collection, the fetch
stage responds 200 with only the likes chart. -/
theorem fetch_and_respond_reposts_nonsuccess (r : Remote) (did handle : Option String)
    (pid : String)
    (hrep : ∀ uri, ∃ s b, r.getRepostedBy uri = .ok (s, b) ∧ s ≠ 200)
    (hlik : ∀ uri, ∃ recs, r.getLikes uri = .ok (200, recs) ∧ recs ≠ [] ∧
        (bucketCounts (recs.filterMap id)).isSome) :
    fetch_and_respond r did handle pid = .ok ⟨200, some "static/likes_chart.png", none, none⟩ := by
  obtain ⟨rs, rb, hb, hns⟩ := hrep ("at://" ++ pyStr did ++ "/app.bsky.feed.post/" ++ pid)
  obtain ⟨recs, hb2, hne, hbk⟩ := hlik ("at://" ++ pyStr did ++ "/app.bsky.feed.post/" ++ pid)
  obtain ⟨bs, hbs⟩ := Option.isSome_iff_exists.mp hbk
  simp only [fetch_and_respond, hb, hb2, if_neg hns, if_pos rfl, if_neg hne,
    generate_likes_chart, hbs]
  simp [hne, hbs, generate_reposts_chart, Except.map]

/-- When the credential is cached, the link matches one of the two shapes,
and the fetch stage produces `resp` whatever identifiers it is given, the
orchestrator returns `resp` and leaves the credential unchanged. -/
theorem generate_charts_of_fetch (r : Remote) (tok lnk : String) (resp : Resp)
    (htok : truthy (some tok) = true)
    (hlink : (did_in_profile_match (pyStrip lnk)).isSome ∨ (web_match (pyStrip lnk)).isSome)
    (hfr : ∀ did handle pid, fetch_and_respond r did handle pid = .ok resp) :
    generate_charts r (some tok) (some lnk) = (some tok, resp) := by
  have hcore : generate_charts_core r (some tok) (some lnk) = (some tok, .ok resp) := by
    simp only [generate_charts_core, htok, if_true]
    rcases hd : did_in_profile_match (pyStrip lnk) with _ | ⟨d, pid⟩
    · rcases hw : web_match (pyStrip lnk) with _ | ⟨hdl, pid⟩
      · rcases hlink with hh | hh <;> simp [hd, hw] at hh
      · simp [hd, hw, hfr]
    · simp [hd, hfr]
  simp [generate_charts, hcore]

/-- C3: when both collections come back empty, the response is a success
with an empty body: no chart keys and no error key. -/
theorem c3_empty_engagement_success (r : Remote) (tok lnk : String)
    (htok : truthy (some tok) = true)
    (hlink : (did_in_profile_match (pyStrip lnk)).isSome ∨ (web_match (pyStrip lnk)).isSome)
    (hrep : ∀ uri, ∃ s b, r.getRepostedBy uri = .ok (s, b) ∧ (if s = 200 then b else []) = [])
    (hlik : ∀ uri, ∃ s b, r.getLikes uri = .ok (s, b) ∧ (if s = 200 then b else []) = []) :
    generate_charts r (some tok) (some lnk) = (some tok, ⟨200, none, none, none⟩) :=
  generate_charts_of_fetch r tok lnk ⟨200, none, none, none⟩ htok hlink
    (fun did handle pid => fetch_and_respond_of_empty r did handle pid hrep hlik)

/-- Witness for C3: a remote answering 404 for reposts and 200 with an
empty list for likes, on a handle-form link. -/
theorem c3_empty_engagement_success_witness :
    generate_charts
        { baseRemote with getRepostedBy := fun _ => .ok (404, [some "2024-01-01T00:00:00Z"]) }
        (some "tok") (some "https://bsky.app/profile/alice.test/post/3kabc")
      = (some "tok", ⟨200, none, none, none⟩) :=
  c3_empty_engagement_success _ "tok" "https://bsky.app/profile/alice.test/post/3kabc"
    (by decide) (Or.inr (by decide))
    (fun _ => ⟨404, [some "2024-01-01T00:00:00Z"], rfl, by decide⟩)
    (fun _ => ⟨200, [], rfl, rfl⟩)

/-- C4 as stated is false: when the reposts fetch raises a transport error
(rather than returning a non-success status) while likes succeeds with a
non-empty collection, the exception propagates to the boundary and the
response is a 500 error without `likes_chart`, not a success. -/
theorem c4_counterexample_transport_error_aborts :
    generate_charts repostsDownRemote (some "tok")
        (some "https://bsky.app/profile/alice.test/post/3kabc")
      = (some "tok", ⟨500, none, none, some "Error generating charts: connection aborted"⟩) := by
  decide

/-- C4 amended: when the reposts fetch returns a non-success HTTP status
(without raising) while the likes fetch succeeds with a non-empty,
aggregatable collection, the reposts kind degrades to an empty collection
and the response is a success containing `likes_chart` and omitting
`reposts_chart`. -/
theorem c4_amended_nonsuccess_status_fail_soft (r : Remote) (tok lnk : String)
    (htok : truthy (some tok) = true)
    (hlink : (did_in_profile_match (pyStrip lnk)).isSome ∨ (web_match (pyStrip lnk)).isSome)
    (hrep : ∀ uri, ∃ s b, r.getRepostedBy uri = .ok (s, b) ∧ s ≠ 200)
    (hlik : ∀ uri, ∃ recs, r.getLikes uri = .ok (200, recs) ∧ recs ≠ [] ∧
        (bucketCounts (recs.filterMap id)).isSome) :
    generate_charts r (some tok) (some lnk)
      = (some tok, ⟨200, some "static/likes_chart.png", none, none⟩) :=
  generate_charts_of_fetch r tok lnk ⟨200, some "static/likes_chart.png", none, none⟩ htok hlink
    (fun did handle pid => fetch_and_respond_reposts_nonsuccess r did handle pid hrep hlik)

/-- Witness for the amended C4: reposts endpoint answers 502, likes
endpoint answers 200 with one timestamped like. -/
theorem c4_amended_nonsuccess_status_fail_soft_witness :
    generate_charts
        { baseRemote with
          getRepostedBy := fun _ => .ok (502, [])
          getLikes := fun _ => .ok (200, [some "2024-01-01T00:00:00Z"]) }
        (some "tok") (some "https://bsky.app/profile/alice.test/post/3kabc")
      = (some "tok", ⟨200, some "static/likes_chart.png", none, none⟩) :=
  c4_amended_nonsuccess_status_fail_soft _ "tok" "https://bsky.app/profile/alice.test/post/3kabc"
    (by decide) (Or.inr (by decide))
    (fun _ => ⟨502, [], rfl, by decide⟩)
    (fun _ => ⟨[some "2024-01-01T00:00:00Z"], rfl, by decide, by decide⟩)

/-- C5: a link matching neither accepted shape is rejected with the 400
response `Invalid link format.`; the result does not depend on the remote
oracle at all, so the fetch stage is never consulted. -/
theorem c5_invalid_link_rejected (r : Remote) (tok lnk : String)
    (htok : truthy (some tok) = true)
    (hd : did_in_profile_match (pyStrip lnk) = none)
    (hw : web_match (pyStrip lnk) = none) :
    generate_charts r (some tok) (some lnk)
      = (some tok, ⟨400, none, none, some "Invalid link format."⟩) := by
  have hcore : generate_charts_core r (some tok) (some lnk)
      = (some tok, .ok ⟨400, none, none, some "Invalid link format."⟩) := by
    simp only [generate_charts_core, htok, if_true]
    simp [hd, hw]
  simp [generate_charts, hcore]

/-- The wrapped endpoint returns the same new token as the `try` body. -/
theorem generate_charts_fst (r : Remote) (tok reqLink : Option String) :
    (generate_charts r tok reqLink).1 = (generate_charts_core r tok reqLink).1 := by
  rw [generate_charts]
  rcases h : generate_charts_core r tok reqLink with ⟨tok2, res⟩
  cases res <;> rfl

/-- With a cached truthy credential, the `try` body leaves the global
token unchanged on every path. -/
theorem generate_charts_core_fst (r : Remote) (tok reqLink : Option String)
    (htok : truthy tok = true) :
    (generate_charts_core r tok reqLink).1 = tok := by
  simp only [generate_charts_core, htok, if_true]
  cases reqLink with
  | none => rfl
  | some raw =>
    rcases h1 : did_in_profile_match (pyStrip raw) with _ | ⟨d, pid⟩
    · rcases h2 : web_match (pyStrip raw) with _ | ⟨hdl, pid⟩ <;> simp [h1, h2]
    · simp [h1]

/-- C6: with a credential already cached, the orchestrator's behaviour is
independent of the session-creation endpoint (so session creation is never
re-invoked), and the cached credential is left in place for the next
request. -/
theorem c6_cached_credential_skips_session (r : Remote) (j : Except String (Option String))
    (tok reqLink : Option String) (htok : truthy tok = true) :
    generate_charts (r.withSession j) tok reqLink = generate_charts r tok reqLink ∧
      (generate_charts r tok reqLink).1 = tok := by
  obtain ⟨cs, rh, gp, grb, gl⟩ := r
  constructor
  · simp only [generate_charts, generate_charts_core, fetch_and_respond, resolve_did,
      fetch_username_from_did, Remote.withSession, htok, if_true]
  · rw [generate_charts_fst]
    exact generate_charts_core_fst _ tok reqLink htok

/-- Witness for C6 at a concrete cached credential and request. -/
theorem c6_cached_credential_skips_session_witness :
    generate_charts (baseRemote.withSession (.error "down")) (some "tok")
        (some "https://bsky.app/profile/alice.test/post/3kabc")
      = generate_charts baseRemote (some "tok")
          (some "https://bsky.app/profile/alice.test/post/3kabc") ∧
      (generate_charts baseRemote (some "tok")
          (some "https://bsky.app/profile/alice.test/post/3kabc")).1 = some "tok" :=
  c6_cached_credential_skips_session baseRemote (.error "down") (some "tok")
    (some "https://bsky.app/profile/alice.test/post/3kabc") (by decide)

/-- Any normal (non-raising) result of the fetch stage is a 200 response
without an error key. -/
theorem fetch_and_respond_ok_shape (r : Remote) (did handle : Option String) (pid : String)
    (resp : Resp) (h : fetch_and_respond r did handle pid = .ok resp) :
    resp.status = 200 ∧ resp.error = none := by
  simp only [fetch_and_respond] at h
  repeat' split at h
  all_goals first
    | exact Except.noConfusion h
    | (injection h with h; subst h; exact ⟨rfl, rfl⟩)

/-- Any normal result of the `try` body is a 200 response without an error
key, or one of the two 400 rejections. -/
theorem generate_charts_core_ok_shape (r : Remote) (tok reqLink tok2 : Option String)
    (resp : Resp) (h : generate_charts_core r tok reqLink = (tok2, .ok resp)) :
    (resp.status = 200 ∧ resp.error = none) ∨
      resp = ⟨400, none, none, some "No link provided"⟩ ∨
      resp = ⟨400, none, none, some "Invalid link format."⟩ := by
  simp only [generate_charts_core] at h
  repeat' split at h
  all_goals
    injection h with h1 h2
  all_goals first
    | exact Except.noConfusion h2
    | (injection h2 with h2; subst h2; simp)
    | (left; exact fetch_and_respond_ok_shape r _ _ _ resp h2)

/-- C9: every response of the `/generate` endpoint is a 200 success
without an error key, a 400 rejection, or the generic 500 error whose body
is the caught exception's message prefixed by `Error generating charts: `
and which carries no chart keys; raised exceptions never propagate out of
the endpoint. -/
theorem c9_orchestrator_error_boundary (r : Remote) (tok reqLink : Option String) :
    ((generate_charts r tok reqLink).2.status = 200 ∧
        (generate_charts r tok reqLink).2.error = none) ∨
      (generate_charts r tok reqLink).2.status = 400 ∨
      ((generate_charts r tok reqLink).2.status = 500 ∧
        (generate_charts r tok reqLink).2.likes_chart = none ∧
        (generate_charts r tok reqLink).2.reposts_chart = none ∧
        ∃ e, (generate_charts r tok reqLink).2.error
          = some ("Error generating charts: " ++ e)) := by
  rcases hcore : generate_charts_core r tok reqLink with ⟨tok2, res⟩
  cases res with
  | error e =>
    right; right
    simp [generate_charts, hcore]
  | ok resp =>
    rcases generate_charts_core_ok_shape r tok reqLink tok2 resp hcore with hs | hs | hs
    · left; simp [generate_charts, hcore, hs.1, hs.2]
    · right; left; simp [generate_charts, hcore, hs]
    · right; left; simp [generate_charts, hcore, hs]

/-- A successful literal strip decomposes the input. -/
theorem stripPre_eq_append {p : List Char} : ∀ {cs r : List Char},
    stripPre p cs = some r → cs = p ++ r := by
  induction p with
  | nil => intro cs r h; simp [stripPre] at h; simp [h]
  | cons a ps ih =>
    intro cs r h
    cases cs with
    | nil => simp [stripPre] at h
    | cons c rest =>
      simp only [stripPre] at h
      by_cases hc : c = a
      · rw [if_pos hc] at h
        subst hc
        simpa using ih h
      · rw [if_neg hc] at h; exact Option.noConfusion h

/-- A non-`/` head character belongs to the leading segment. -/
theorem seg_cons_of_ne (c : Char) (cs : List Char) (h : c ≠ '/') :
    seg (c :: cs) = c :: seg cs := by
  simp [seg, List.takeWhile, h]

/-- A non-`/` head character is skipped when looking for the segment end. -/
theorem afterSeg_cons_of_ne (c : Char) (cs : List Char) (h : c ≠ '/') :
    afterSeg (c :: cs) = afterSeg cs := by
  simp [afterSeg, List.dropWhile, h]

/-- A link matched by the DID-form pattern is also matched by the general
pattern, with the same two groups. -/
theorem did_match_implies_web_match {link d pid : String}
    (h : did_in_profile_match link = some (d, pid)) :
    web_match link = some (d, pid) := by
  simp only [did_in_profile_match] at h
  simp only [web_match]
  cases hs : stripPre "https://".data link.data <|> stripPre "http://".data link.data with
  | none => simp [hs] at h
  | some r1 =>
    simp only [hs] at h ⊢
    cases hp : stripPre "bsky.app/profile/".data r1 with
    | none => simp [hp] at h
    | some r2 =>
      simp only [hp] at h ⊢
      cases hd2 : stripPre "did:".data r2 with
      | none => simp [hd2] at h
      | some r2did =>
        simp only [hd2] at h
        obtain rfl : r2 = "did:".data ++ r2did := stripPre_eq_append hd2
        by_cases hts : seg r2did = []
        · simp [if_pos hts] at h
        · simp only [if_neg hts] at h
          cases hpost : stripPre "/post/".data (afterSeg r2did) with
          | none => simp [hpost] at h
          | some r3 =>
            simp only [hpost] at h
            by_cases hps : seg r3 = []
            · simp [if_pos hps] at h
            · simp only [if_neg hps] at h
              have hdd : "did:".data = ['d', 'i', 'd', ':'] := rfl
              have hseg2 : seg ("did:".data ++ r2did) = "did:".data ++ seg r2did := by
                rw [hdd]
                simp only [List.cons_append, List.nil_append]
                rw [seg_cons_of_ne _ _ (by decide), seg_cons_of_ne _ _ (by decide),
                  seg_cons_of_ne _ _ (by decide), seg_cons_of_ne _ _ (by decide)]
              have hafter : afterSeg ("did:".data ++ r2did) = afterSeg r2did := by
                rw [hdd]
                simp only [List.cons_append, List.nil_append]
                rw [afterSeg_cons_of_ne _ _ (by decide), afterSeg_cons_of_ne _ _ (by decide),
                  afterSeg_cons_of_ne _ _ (by decide), afterSeg_cons_of_ne _ _ (by decide)]
              have hne : "did:".data ++ seg r2did ≠ [] := by rw [hdd]; simp
              rw [hseg2, if_neg hne, hafter, hpost]
              simpa [if_neg hps] using h

/-- C10: a link whose profile segment has the DID shape also matches the
general handle-form pattern, yet the orchestrator's behaviour on it is
independent of the forward handle-resolution endpoint: the DID branch is
taken, so forward resolution is only ever invoked on non-DID links. -/
theorem c10_did_form_precedence (raw d pid : String) (r : Remote)
    (f : String → Except String (Option String)) (tok : Option String)
    (h : did_in_profile_match (pyStrip raw) = some (d, pid)) :
    web_match (pyStrip raw) = some (d, pid) ∧
      generate_charts (r.withResolve f) tok (some raw) = generate_charts r tok (some raw) := by
  refine ⟨did_match_implies_web_match h, ?_⟩
  obtain ⟨cs, rh, gp, grb, gl⟩ := r
  simp only [generate_charts, generate_charts_core, get_access_token, fetch_and_respond,
    fetch_username_from_did, Remote.withResolve, h]

/-- Witness for C10 at a concrete DID-form link. -/
theorem c10_did_form_precedence_witness :
    web_match (pyStrip "https://bsky.app/profile/did:plc:abc/post/3kabc")
        = some ("did:plc:abc", "3kabc") ∧
      generate_charts (baseRemote.withResolve fun _ => .error "down") (some "tok")
          (some "https://bsky.app/profile/did:plc:abc/post/3kabc")
        = generate_charts baseRemote (some "tok")
            (some "https://bsky.app/profile/did:plc:abc/post/3kabc") :=
  c10_did_form_precedence "https://bsky.app/profile/did:plc:abc/post/3kabc" "did:plc:abc" "3kabc"
    baseRemote (fun _ => .error "down") (some "tok") (by decide)

/-- Witness for C5: a link missing the `/post/<id>` suffix. -/
theorem c5_invalid_link_rejected_witness :
    generate_charts baseRemote (some "tok") (some "https://bsky.app/profile/alice.test")
      = (some "tok", ⟨400, none, none, some "Invalid link format."⟩) :=
  c5_invalid_link_rejected baseRemote "tok" "https://bsky.app/profile/alice.test"
    (by decide) (by decide) (by decide)

end Visualizer
